import Mathlib

/-!
Verification of the Solaris6K planetary-position pipeline.

The development shallowly embeds the Python sources `Solaris6K.py`,
`solaris_6k.py` and `Constants.py` into Lean: numpy float64 scalars become
real numbers, numpy arrays over the nine bodies become functions
`Fin n → ℝ`, the raised `ValueError` of `get_century` becomes an `Option`,
the special float value `inf` that seeds the Kepler loop becomes `⊤ : EReal`,
and the unbounded `while` loop of the Kepler solver becomes a fuel-indexed
recursion returning `none` when the fuel runs out before convergence.
NaN produced by `numpy.sqrt` on a negative argument is modeled by `none`
in a dedicated `Option`-valued square root.
-/

open Real

noncomputable section

open scoped Classical

namespace Constants

/-- J2000.0 epoch in Julian date, from Constants.py. -/
def J2000_0 : ℝ := 2451545.0

/-- Days per century, from Constants.py. -/
def CONVERSION_FACTOR : ℝ := 36525

/-- Conversion factor 180/pi applied to eccentricities, from Constants.py
(the source spells the name ECCENTRICITIY_FACTOR). -/
def ECCENTRICITIY_FACTOR : ℝ := 180 / Real.pi

/-- Kepler's-equation error threshold, the literal 10E-8 = 1e-7, from Constants.py. -/
def TOL : ℝ := 10e-8

/-- J2000 frame obliquity in degrees, from Constants.py. -/
def OBLIQUITY : ℝ := 23.43928

/-- Semi-major axes in au, from Constants.py. -/
def SEMI_MAJOR_AXES : Fin 9 → ℝ :=
  ![0.38709843, 0.72332102, 1.00000018, 1.52371234, 5.20248019, 9.54149883,
    19.18797948, 30.06952752, 39.48686035]

/-- Semi-major axis rates in au/century, from Constants.py. -/
def SEMI_MAJOR_AXES_RATE : Fin 9 → ℝ :=
  ![0.00000000, -0.00000026, -0.00000003, 0.00000097, -0.00002864, -0.00003065,
    -0.00020455, 0.00006447, 0.00449751]

/-- Eccentricities, from Constants.py. -/
def ECCENTRICITIES : Fin 9 → ℝ :=
  ![0.20563661, 0.00676399, 0.01673163, 0.09336511, 0.04853590, 0.05550825,
    0.04685740, 0.00895439, 0.24885238]

/-- Eccentricity rates per century, from Constants.py. -/
def ECCENTRICITIES_RATE : Fin 9 → ℝ :=
  ![0.00002123, -0.00005107, -0.00003661, 0.00009149, -0.00018026, -0.00032044,
    -0.00001550, 0.00000818, 0.00006026]

/-- Inclinations in degrees, from Constants.py. -/
def INCLINATIONS : Fin 9 → ℝ :=
  ![7.00559432, 3.39777545, -0.00054346, 1.85181869, 1.29861416, 2.49424102,
    0.77298127, 1.77005520, 17.14104260]

/-- Inclination rates in degrees/century, from Constants.py. -/
def INCLINATIONS_RATE : Fin 9 → ℝ :=
  ![-0.00590158, 0.00043494, -0.01337178, -0.00724757, -0.00322699, 0.00451969,
    -0.00180155, 0.00022400, 0.00000501]

/-- Mean longitudes in degrees, from Constants.py. -/
def MEAN_LONGITUDES : Fin 9 → ℝ :=
  ![252.25166724, 181.97970850, 100.46691572, -4.56813164, 34.33479152,
    50.07571329, 314.20276625, 304.22289287, 238.96535011]

/-- Mean longitude rates in degrees/century, from Constants.py. -/
def MEAN_LONGITUDES_RATE : Fin 9 → ℝ :=
  ![149472.67486623, 58517.81560260, 35999.37306329, 19140.29934243,
    3034.90371757, 1222.11494724, 428.49512595, 218.46515314, 145.18042903]

/-- Perihelion longitudes in degrees, from Constants.py. -/
def PERIHELION_LONGITUDES : Fin 9 → ℝ :=
  ![77.45771895, 131.76755713, 102.93005885, -23.91744784, 14.27495244,
    92.86136063, 172.43404441, 46.68158724, 224.09702598]

/-- Perihelion longitude rates in degrees/century, from Constants.py. -/
def PERIHELION_LONGITUDES_RATE : Fin 9 → ℝ :=
  ![0.15940013, 0.05679648, 0.31795260, 0.45223625, 0.18199196, 0.54179478,
    0.09266985, 0.01009938, -0.00968827]

/-- Ascending node longitudes in degrees, from Constants.py. -/
def ASCENDING_NODE_LONGITUDES : Fin 9 → ℝ :=
  ![48.33961819, 76.67261496, -5.11260389, 49.71320984, 100.29282654,
    113.63998702, 73.96250215, 131.78635853, 110.30167986]

/-- Ascending node longitude rates in degrees/century, from Constants.py. -/
def ASCENDING_NODE_LONGITUDES_RATE : Fin 9 → ℝ :=
  ![-0.12214182, -0.27274174, -0.24123856, -0.26852431, 0.13024619, -0.25015002,
    0.05739699, -0.00606302, -0.00809981]

/-- Additional term b for the mean anomaly of Jupiter through Pluto, from Constants.py. -/
def TERM_B : Fin 9 → ℝ :=
  ![0, 0, 0, 0, -0.00012452, 0.00025899, 0.00058331, -0.00041348, -0.01262724]

/-- Additional term c for the mean anomaly of Jupiter through Pluto, from Constants.py. -/
def TERM_C : Fin 9 → ℝ :=
  ![0, 0, 0, 0, 0.06064060, -0.13434469, -0.97731848, 0.68346318, 0]

/-- Additional term s for the mean anomaly of Jupiter through Pluto, from Constants.py. -/
def TERM_S : Fin 9 → ℝ :=
  ![0, 0, 0, 0, -0.35635438, 0.87320147, 0.17689245, -0.10162547, 0]

/-- Additional term f for the mean anomaly of Jupiter through Pluto, from Constants.py. -/
def TERM_F : Fin 9 → ℝ :=
  ![0, 0, 0, 0, 38.35125000, 38.35125000, 7.67025000, 7.67025000, 0]

end Constants

/-- The injected static table of per-body orbital elements, their secular
rates and the additional correction terms, generalized over the number of
bodies `n` (the repository uses `n = 9`). -/
structure ElementTable (n : ℕ) where
  semi_major_axes : Fin n → ℝ
  semi_major_axes_rate : Fin n → ℝ
  eccentricities : Fin n → ℝ
  eccentricities_rate : Fin n → ℝ
  inclinations : Fin n → ℝ
  inclinations_rate : Fin n → ℝ
  mean_longitudes : Fin n → ℝ
  mean_longitudes_rate : Fin n → ℝ
  perihelion_longitudes : Fin n → ℝ
  perihelion_longitudes_rate : Fin n → ℝ
  ascending_node_longitudes : Fin n → ℝ
  ascending_node_longitudes_rate : Fin n → ℝ
  term_b : Fin n → ℝ
  term_c : Fin n → ℝ
  term_s : Fin n → ℝ
  term_f : Fin n → ℝ

/-- The concrete nine-body table assembled from Constants.py. -/
def Constants.table : ElementTable 9 :=
  { semi_major_axes := Constants.SEMI_MAJOR_AXES
    semi_major_axes_rate := Constants.SEMI_MAJOR_AXES_RATE
    eccentricities := Constants.ECCENTRICITIES
    eccentricities_rate := Constants.ECCENTRICITIES_RATE
    inclinations := Constants.INCLINATIONS
    inclinations_rate := Constants.INCLINATIONS_RATE
    mean_longitudes := Constants.MEAN_LONGITUDES
    mean_longitudes_rate := Constants.MEAN_LONGITUDES_RATE
    perihelion_longitudes := Constants.PERIHELION_LONGITUDES
    perihelion_longitudes_rate := Constants.PERIHELION_LONGITUDES_RATE
    ascending_node_longitudes := Constants.ASCENDING_NODE_LONGITUDES
    ascending_node_longitudes_rate := Constants.ASCENDING_NODE_LONGITUDES_RATE
    term_b := Constants.TERM_B
    term_c := Constants.TERM_C
    term_s := Constants.TERM_S
    term_f := Constants.TERM_F }

namespace Solaris6K

/-- Wrapper for numpy.sin to take degrees, from Solaris6K.py
(numpy.deg2rad multiplies by pi/180). -/
def sin_wrapper (theta : ℝ) : ℝ := Real.sin (theta * (Real.pi / 180))

/-- Wrapper for numpy.arcsin to return degrees, from Solaris6K.py
(numpy.rad2deg multiplies by 180/pi). -/
def arcsin_wrapper (num : ℝ) : ℝ := Real.arcsin num * (180 / Real.pi)

/-- Wrapper for numpy.cos to take degrees, from Solaris6K.py. -/
def cos_wrapper (theta : ℝ) : ℝ := Real.cos (theta * (Real.pi / 180))

/-- Wrapper for numpy.arccos to return degrees, from Solaris6K.py. -/
def arccos_wrapper (num : ℝ) : ℝ := Real.arccos num * (180 / Real.pi)

/-- get_century from Solaris6K.py: centuries elapsed since J2000.0.
The raised ValueError for an out-of-scope date is modeled by `none`. -/
def get_century (jd_time : ℝ) : Option ℝ :=
  let num_century := (jd_time - Constants.J2000_0) / Constants.CONVERSION_FACTOR
  if 30 < |num_century| then none else some num_century

/-- get_current_value from Solaris6K.py: linear interpolation of one element. -/
def get_current_value (base_value rate time : ℝ) : ℝ :=
  base_value + rate * time

/-- get_perihelion_argument from Solaris6K.py. -/
def get_perihelion_argument (perihelion_longitude ascending_node_longitude : ℝ) : ℝ :=
  perihelion_longitude - ascending_node_longitude

/-- get_mean_anomaly from Solaris6K.py.  The additional terms use the bare
numpy.cos and numpy.sin, whose arguments are radians, unlike the degree
wrappers used everywhere else in the module; the embedding reproduces this
exactly with `Real.cos`/`Real.sin` applied to `term_f * time` directly. -/
def get_mean_anomaly (mean_longitude perihelion_longitude : ℝ)
    (additional_terms : ℝ × ℝ × ℝ × ℝ) (time : ℝ) : ℝ :=
  match additional_terms with
  | (term_b, term_c, term_s, term_f) =>
    arcsin_wrapper (sin_wrapper
      (mean_longitude - perihelion_longitude + term_b * time ^ 2
        + term_c * Real.cos (term_f * time) + term_s * Real.sin (term_f * time)))

/-- Convergence test of the while loop in get_eccentric_anomaly:
`any(eccentric_anomaly_delta > tol)` over the bodies, with the signed
(not absolute) deltas.  Deltas are `EReal` so that the initial scalar
`numpy.float64("inf")`, broadcast against the tolerance array, is `⊤`. -/
def delta_exceeds {n : ℕ} (delta tol : Fin n → EReal) : Prop :=
  ∃ i, tol i < delta i

/-- One vectorized Newton update of the eccentric anomaly, from the body of
the while loop in get_eccentric_anomaly (Solaris6K.py lines 94-96):
`term_e = eccentricity * ECCENTRICITIY_FACTOR`,
`mean_anomaly_delta = mean_anomaly - (E - term_e*sin_wrapper(E))`,
`eccentric_anomaly_delta = mean_anomaly_delta / (1 - eccentricity*cos_wrapper(E))`. -/
def newton_update {n : ℕ} (mean_anomaly eccentricity ecc : Fin n → ℝ) : Fin n → ℝ :=
  fun i =>
    (mean_anomaly i
        - (ecc i - eccentricity i * Constants.ECCENTRICITIY_FACTOR * sin_wrapper (ecc i)))
      / (1 - eccentricity i * cos_wrapper (ecc i))

/-- Fuel-indexed embedding of the unbounded while loop of
get_eccentric_anomaly.  The state is the current eccentric-anomaly vector and
the most recent delta vector; the result also carries the number of executed
loop iterations.  `none` means the fuel was exhausted while the convergence
test still demanded another iteration. -/
def eccentric_iter {n : ℕ} (mean_anomaly eccentricity : Fin n → ℝ) (tol : Fin n → EReal) :
    ℕ → (Fin n → ℝ) → (Fin n → EReal) → Option ((Fin n → ℝ) × (Fin n → EReal) × ℕ)
  | 0, ecc, delta =>
      if delta_exceeds delta tol then none else some (ecc, delta, 0)
  | fuel + 1, ecc, delta =>
      if delta_exceeds delta tol then
        (eccentric_iter mean_anomaly eccentricity tol fuel
            (fun i => ecc i + newton_update mean_anomaly eccentricity ecc i)
            (fun i => ((newton_update mean_anomaly eccentricity ecc i : ℝ) : EReal))).map
          (fun r => (r.1, r.2.1, r.2.2 + 1))
      else some (ecc, delta, 0)

/-- Seed of the iteration in get_eccentric_anomaly:
`eccentric_anomaly = mean_anomaly + term_e * sin_wrapper(mean_anomaly)`. -/
def eccentric_seed {n : ℕ} (mean_anomaly eccentricity : Fin n → ℝ) : Fin n → ℝ :=
  fun i =>
    mean_anomaly i
      + eccentricity i * Constants.ECCENTRICITIY_FACTOR * sin_wrapper (mean_anomaly i)

/-- get_eccentric_anomaly from Solaris6K.py, vectorized over the bodies.
The initial delta is the scalar infinity, modeled by the constant `⊤` vector. -/
def get_eccentric_anomaly {n : ℕ} (mean_anomaly eccentricity : Fin n → ℝ)
    (tol : Fin n → EReal) (fuel : ℕ) : Option (Fin n → ℝ) :=
  (eccentric_iter mean_anomaly eccentricity tol fuel
      (eccentric_seed mean_anomaly eccentricity) (fun _ => ⊤)).map
    (fun r => r.1)

/-- get_ecliptic_coordinate from Solaris6K.py, per body: the three components
are the dot products of the heliocentric vector with the rows of the
ecliptic x/y/z matrices built from the perihelion argument, ascending node
longitude and inclination. -/
def get_ecliptic_coordinate (heliocentric_coordinate : ℝ × ℝ × ℝ)
    (perihelion_argument ascending_node_longitude inclination : ℝ) : ℝ × ℝ × ℝ :=
  (heliocentric_coordinate.1
      * (cos_wrapper perihelion_argument * cos_wrapper ascending_node_longitude
        - sin_wrapper perihelion_argument * sin_wrapper ascending_node_longitude
          * cos_wrapper inclination)
    + heliocentric_coordinate.2.1
      * (-(sin_wrapper perihelion_argument) * cos_wrapper ascending_node_longitude
        - cos_wrapper perihelion_argument * sin_wrapper ascending_node_longitude
          * cos_wrapper inclination)
    + heliocentric_coordinate.2.2 * 0,
   heliocentric_coordinate.1
      * (cos_wrapper perihelion_argument * sin_wrapper ascending_node_longitude
        + sin_wrapper perihelion_argument * cos_wrapper ascending_node_longitude
          * cos_wrapper inclination)
    + heliocentric_coordinate.2.1
      * (-(sin_wrapper perihelion_argument) * sin_wrapper ascending_node_longitude
        + cos_wrapper perihelion_argument * cos_wrapper ascending_node_longitude
          * cos_wrapper inclination)
    + heliocentric_coordinate.2.2 * 0,
   heliocentric_coordinate.1 * (sin_wrapper perihelion_argument * sin_wrapper inclination)
    + heliocentric_coordinate.2.1 * (cos_wrapper perihelion_argument * sin_wrapper inclination)
    + heliocentric_coordinate.2.2 * 0)

/-- numpy.sqrt restricted to float64: a negative argument yields NaN, which
the embedding models as `none`. -/
def numpy_sqrt (x : ℝ) : Option ℝ := if x < 0 then none else some (Real.sqrt x)

/-- The y component of the heliocentric coordinate computed inside main
(`semi_major_axes * numpy.sqrt(1 - eccentricities ** 2) * sin_wrapper(E)`),
with NaN propagation made explicit through `numpy_sqrt`. -/
def heliocentric_y (semi_major_axis eccentricity ecc_anomaly : ℝ) : Option ℝ :=
  (numpy_sqrt (1 - eccentricity ^ 2)).map
    (fun s => semi_major_axis * s * sin_wrapper ecc_anomaly)

/-- The full pipeline of main from Solaris6K.py, parameterized by the
injected element table and the Julian date (main hardcodes
jd = 2451545.0 and Constants.table).  `fuel` bounds the embedded Kepler
loop; `none` means either the out-of-range error of get_century or fuel
exhaustion in the solver.  The y heliocentric component uses `Real.sqrt`
here; NaN propagation for e > 1 is analyzed separately via `heliocentric_y`. -/
def main_pipeline {n : ℕ} (tab : ElementTable n) (fuel : ℕ) (jd_time : ℝ) :
    Option (Fin n → ℝ × ℝ × ℝ) :=
  (get_century jd_time).bind fun century_since_epoch =>
    let semi_major_axes := fun i =>
      get_current_value (tab.semi_major_axes i) (tab.semi_major_axes_rate i) century_since_epoch
    let eccentricities := fun i =>
      get_current_value (tab.eccentricities i) (tab.eccentricities_rate i) century_since_epoch
    let inclinations := fun i =>
      get_current_value (tab.inclinations i) (tab.inclinations_rate i) century_since_epoch
    let mean_longitudes := fun i =>
      get_current_value (tab.mean_longitudes i) (tab.mean_longitudes_rate i) century_since_epoch
    let perihelion_longitudes := fun i =>
      get_current_value (tab.perihelion_longitudes i) (tab.perihelion_longitudes_rate i)
        century_since_epoch
    let ascending_node_longitudes := fun i =>
      get_current_value (tab.ascending_node_longitudes i) (tab.ascending_node_longitudes_rate i)
        century_since_epoch
    let perihelion_arguments := fun i =>
      get_perihelion_argument (perihelion_longitudes i) (ascending_node_longitudes i)
    let mean_anomalies := fun i =>
      get_mean_anomaly (mean_longitudes i) (perihelion_longitudes i)
        (tab.term_b i, tab.term_c i, tab.term_s i, tab.term_f i) century_since_epoch
    (get_eccentric_anomaly mean_anomalies eccentricities
        (fun _ => ((Constants.TOL : ℝ) : EReal)) fuel).map fun eccentric_anomalies =>
      let heliocentric := fun i =>
        (semi_major_axes i * (cos_wrapper (eccentric_anomalies i) - eccentricities i),
         semi_major_axes i * Real.sqrt (1 - eccentricities i ^ 2)
           * sin_wrapper (eccentric_anomalies i),
         (0 : ℝ))
      let ecliptic := fun i =>
        get_ecliptic_coordinate (heliocentric i) (perihelion_arguments i)
          (ascending_node_longitudes i) (inclinations i)
      fun i =>
        ((ecliptic i).1,
         cos_wrapper Constants.OBLIQUITY * (ecliptic i).2.1
           - sin_wrapper Constants.OBLIQUITY * (ecliptic i).2.2,
         sin_wrapper Constants.OBLIQUITY * (ecliptic i).2.1
           + cos_wrapper Constants.OBLIQUITY * (ecliptic i).2.2)

/-- main from Solaris6K.py: the pipeline applied to the constant table at
the hardcoded Julian date 2451545.0 (the final print is dropped). -/
def main (fuel : ℕ) : Option (Fin 9 → ℝ × ℝ × ℝ) :=
  main_pipeline Constants.table fuel 2451545.0

end Solaris6K

namespace solaris_6k

namespace constants

/-- Modelled from the spec: the module `constants` imported by solaris_6k.py
is absent from src/ (only `Constants.py` is present).  Per the spec, the
static reference table and numeric constants are one external data source
shared by the duplicated entry modules, so the values replicate
Constants.py.  J2000.0 epoch in Julian date. -/
def J2000_0 : ℝ := 2451545.0

/-- Modelled from the spec: days per century, replicating Constants.py. -/
def CONVERSION_FACTOR : ℝ := 36525

/-- Modelled from the spec: the 180/pi eccentricity conversion factor,
replicating Constants.py. -/
def ECCENTRICITIY_FACTOR : ℝ := 180 / Real.pi

/-- Modelled from the spec: the Kepler tolerance 10E-8 = 1e-7,
replicating Constants.py. -/
def TOL : ℝ := 10e-8

/-- Modelled from the spec: the J2000 obliquity in degrees,
replicating Constants.py. -/
def OBLIQUITY : ℝ := 23.43928

end constants

/-- Wrapper for np.sin to take degrees, from solaris_6k.py. -/
def sin_wrapper (theta : ℝ) : ℝ := Real.sin (theta * (Real.pi / 180))

/-- Wrapper for np.arcsin to return degrees, from solaris_6k.py. -/
def arcsin_wrapper (num : ℝ) : ℝ := Real.arcsin num * (180 / Real.pi)

/-- Wrapper for np.cos to take degrees, from solaris_6k.py. -/
def cos_wrapper (theta : ℝ) : ℝ := Real.cos (theta * (Real.pi / 180))

/-- Wrapper for np.arccos to return degrees, from solaris_6k.py. -/
def arccos_wrapper (num : ℝ) : ℝ := Real.arccos num * (180 / Real.pi)

/-- get_century from solaris_6k.py. -/
def get_century (jd_time : ℝ) : Option ℝ :=
  let num_century := (jd_time - constants.J2000_0) / constants.CONVERSION_FACTOR
  if 30 < |num_century| then none else some num_century

/-- get_current_value from solaris_6k.py. -/
def get_current_value (base_value rate time : ℝ) : ℝ :=
  base_value + rate * time

/-- get_perihelion_argument from solaris_6k.py. -/
def get_perihelion_argument (perihelion_longitude ascending_node_longitude : ℝ) : ℝ :=
  perihelion_longitude - ascending_node_longitude

/-- get_mean_anomaly from solaris_6k.py; the additional terms again use the
bare np.cos and np.sin (radians). -/
def get_mean_anomaly (mean_longitude perihelion_longitude : ℝ)
    (additional_terms : ℝ × ℝ × ℝ × ℝ) (time : ℝ) : ℝ :=
  match additional_terms with
  | (term_b, term_c, term_s, term_f) =>
    arcsin_wrapper (sin_wrapper
      (mean_longitude - perihelion_longitude + term_b * time ^ 2
        + term_c * Real.cos (term_f * time) + term_s * Real.sin (term_f * time)))

/-- Convergence test of the while loop in get_eccentric_anomaly from
solaris_6k.py (lines 108-118), identical in shape to the Solaris6K one. -/
def delta_exceeds {n : ℕ} (delta tol : Fin n → EReal) : Prop :=
  ∃ i, tol i < delta i

/-- One vectorized Newton update from the loop body of get_eccentric_anomaly
in solaris_6k.py. -/
def newton_update {n : ℕ} (mean_anomaly eccentricity ecc : Fin n → ℝ) : Fin n → ℝ :=
  fun i =>
    (mean_anomaly i
        - (ecc i - eccentricity i * constants.ECCENTRICITIY_FACTOR * sin_wrapper (ecc i)))
      / (1 - eccentricity i * cos_wrapper (ecc i))

/-- Fuel-indexed embedding of the while loop of get_eccentric_anomaly from
solaris_6k.py. -/
def eccentric_iter {n : ℕ} (mean_anomaly eccentricity : Fin n → ℝ) (tol : Fin n → EReal) :
    ℕ → (Fin n → ℝ) → (Fin n → EReal) → Option ((Fin n → ℝ) × (Fin n → EReal) × ℕ)
  | 0, ecc, delta =>
      if delta_exceeds delta tol then none else some (ecc, delta, 0)
  | fuel + 1, ecc, delta =>
      if delta_exceeds delta tol then
        (eccentric_iter mean_anomaly eccentricity tol fuel
            (fun i => ecc i + newton_update mean_anomaly eccentricity ecc i)
            (fun i => ((newton_update mean_anomaly eccentricity ecc i : ℝ) : EReal))).map
          (fun r => (r.1, r.2.1, r.2.2 + 1))
      else some (ecc, delta, 0)

/-- Seed of the iteration in get_eccentric_anomaly from solaris_6k.py. -/
def eccentric_seed {n : ℕ} (mean_anomaly eccentricity : Fin n → ℝ) : Fin n → ℝ :=
  fun i =>
    mean_anomaly i
      + eccentricity i * constants.ECCENTRICITIY_FACTOR * sin_wrapper (mean_anomaly i)

/-- get_eccentric_anomaly from solaris_6k.py. -/
def get_eccentric_anomaly {n : ℕ} (mean_anomaly eccentricity : Fin n → ℝ)
    (tol : Fin n → EReal) (fuel : ℕ) : Option (Fin n → ℝ) :=
  (eccentric_iter mean_anomaly eccentricity tol fuel
      (eccentric_seed mean_anomaly eccentricity) (fun _ => ⊤)).map
    (fun r => r.1)

/-- get_ecliptic_coordinate from solaris_6k.py, per body. -/
def get_ecliptic_coordinate (heliocentric_coordinate : ℝ × ℝ × ℝ)
    (perihelion_argument ascending_node_longitude inclination : ℝ) : ℝ × ℝ × ℝ :=
  (heliocentric_coordinate.1
      * (cos_wrapper perihelion_argument * cos_wrapper ascending_node_longitude
        - sin_wrapper perihelion_argument * sin_wrapper ascending_node_longitude
          * cos_wrapper inclination)
    + heliocentric_coordinate.2.1
      * (-(sin_wrapper perihelion_argument) * cos_wrapper ascending_node_longitude
        - cos_wrapper perihelion_argument * sin_wrapper ascending_node_longitude
          * cos_wrapper inclination)
    + heliocentric_coordinate.2.2 * 0,
   heliocentric_coordinate.1
      * (cos_wrapper perihelion_argument * sin_wrapper ascending_node_longitude
        + sin_wrapper perihelion_argument * cos_wrapper ascending_node_longitude
          * cos_wrapper inclination)
    + heliocentric_coordinate.2.1
      * (-(sin_wrapper perihelion_argument) * sin_wrapper ascending_node_longitude
        + cos_wrapper perihelion_argument * cos_wrapper ascending_node_longitude
          * cos_wrapper inclination)
    + heliocentric_coordinate.2.2 * 0,
   heliocentric_coordinate.1 * (sin_wrapper perihelion_argument * sin_wrapper inclination)
    + heliocentric_coordinate.2.1 * (cos_wrapper perihelion_argument * sin_wrapper inclination)
    + heliocentric_coordinate.2.2 * 0)

/-- The full pipeline of main from solaris_6k.py, parameterized like the
Solaris6K one. -/
def main_pipeline {n : ℕ} (tab : ElementTable n) (fuel : ℕ) (jd_time : ℝ) :
    Option (Fin n → ℝ × ℝ × ℝ) :=
  (get_century jd_time).bind fun century_since_epoch =>
    let semi_major_axes := fun i =>
      get_current_value (tab.semi_major_axes i) (tab.semi_major_axes_rate i) century_since_epoch
    let eccentricities := fun i =>
      get_current_value (tab.eccentricities i) (tab.eccentricities_rate i) century_since_epoch
    let inclinations := fun i =>
      get_current_value (tab.inclinations i) (tab.inclinations_rate i) century_since_epoch
    let mean_longitudes := fun i =>
      get_current_value (tab.mean_longitudes i) (tab.mean_longitudes_rate i) century_since_epoch
    let perihelion_longitudes := fun i =>
      get_current_value (tab.perihelion_longitudes i) (tab.perihelion_longitudes_rate i)
        century_since_epoch
    let ascending_node_longitudes := fun i =>
      get_current_value (tab.ascending_node_longitudes i) (tab.ascending_node_longitudes_rate i)
        century_since_epoch
    let perihelion_arguments := fun i =>
      get_perihelion_argument (perihelion_longitudes i) (ascending_node_longitudes i)
    let mean_anomalies := fun i =>
      get_mean_anomaly (mean_longitudes i) (perihelion_longitudes i)
        (tab.term_b i, tab.term_c i, tab.term_s i, tab.term_f i) century_since_epoch
    (get_eccentric_anomaly mean_anomalies eccentricities
        (fun _ => ((constants.TOL : ℝ) : EReal)) fuel).map fun eccentric_anomalies =>
      let heliocentric := fun i =>
        (semi_major_axes i * (cos_wrapper (eccentric_anomalies i) - eccentricities i),
         semi_major_axes i * Real.sqrt (1 - eccentricities i ^ 2)
           * sin_wrapper (eccentric_anomalies i),
         (0 : ℝ))
      let ecliptic := fun i =>
        get_ecliptic_coordinate (heliocentric i) (perihelion_arguments i)
          (ascending_node_longitudes i) (inclinations i)
      fun i =>
        ((ecliptic i).1,
         cos_wrapper constants.OBLIQUITY * (ecliptic i).2.1
           - sin_wrapper constants.OBLIQUITY * (ecliptic i).2.2,
         sin_wrapper constants.OBLIQUITY * (ecliptic i).2.1
           + cos_wrapper constants.OBLIQUITY * (ecliptic i).2.2)

end solaris_6k

/-- Dot product of two 3-vectors represented as triples. -/
def dot3 (u v : ℝ × ℝ × ℝ) : ℝ := u.1 * v.1 + u.2.1 * v.2.1 + u.2.2 * v.2.2

/-- Row Px of the ecliptic rotation exactly as the spec states it:
[cos w cos node - sin w sin node cos inc,
 -sin w cos node - cos w sin node cos inc, 0], degree-based trig. -/
def spec_row_x (w node inc : ℝ) : ℝ × ℝ × ℝ :=
  (Solaris6K.cos_wrapper w * Solaris6K.cos_wrapper node
      - Solaris6K.sin_wrapper w * Solaris6K.sin_wrapper node * Solaris6K.cos_wrapper inc,
   -(Solaris6K.sin_wrapper w) * Solaris6K.cos_wrapper node
      - Solaris6K.cos_wrapper w * Solaris6K.sin_wrapper node * Solaris6K.cos_wrapper inc,
   0)

/-- Row Py of the ecliptic rotation exactly as the spec states it. -/
def spec_row_y (w node inc : ℝ) : ℝ × ℝ × ℝ :=
  (Solaris6K.cos_wrapper w * Solaris6K.sin_wrapper node
      + Solaris6K.sin_wrapper w * Solaris6K.cos_wrapper node * Solaris6K.cos_wrapper inc,
   -(Solaris6K.sin_wrapper w) * Solaris6K.sin_wrapper node
      + Solaris6K.cos_wrapper w * Solaris6K.cos_wrapper node * Solaris6K.cos_wrapper inc,
   0)

/-- Row Pz of the ecliptic rotation exactly as the spec states it. -/
def spec_row_z (w node inc : ℝ) : ℝ × ℝ × ℝ :=
  (Solaris6K.sin_wrapper w * Solaris6K.sin_wrapper inc,
   Solaris6K.cos_wrapper w * Solaris6K.sin_wrapper inc,
   0)

/-- Mean Anomaly Calculator exactly as the spec words it: identical to the
code except that the periodic correction terms use the degree-based
trigonometry (`cos_wrapper`/`sin_wrapper`) on the argument f*t. -/
def spec_mean_anomaly_degree_trig (mean_longitude perihelion_longitude : ℝ)
    (additional_terms : ℝ × ℝ × ℝ × ℝ) (time : ℝ) : ℝ :=
  match additional_terms with
  | (term_b, term_c, term_s, term_f) =>
    Solaris6K.arcsin_wrapper (Solaris6K.sin_wrapper
      (mean_longitude - perihelion_longitude + term_b * time ^ 2
        + term_c * Solaris6K.cos_wrapper (term_f * time)
        + term_s * Solaris6K.sin_wrapper (term_f * time)))

/-- The degenerate one-body table with all entries zero, used to exhibit a
concrete terminating run of the pipeline. -/
def zeroTable : ElementTable 1 :=
  { semi_major_axes := fun _ => 0
    semi_major_axes_rate := fun _ => 0
    eccentricities := fun _ => 0
    eccentricities_rate := fun _ => 0
    inclinations := fun _ => 0
    inclinations_rate := fun _ => 0
    mean_longitudes := fun _ => 0
    mean_longitudes_rate := fun _ => 0
    perihelion_longitudes := fun _ => 0
    perihelion_longitudes_rate := fun _ => 0
    ascending_node_longitudes := fun _ => 0
    ascending_node_longitudes_rate := fun _ => 0
    term_b := fun _ => 0
    term_c := fun _ => 0
    term_s := fun _ => 0
    term_f := fun _ => 0 }

/-- On the interval [-90, 90] the arcsine-of-sine normalization of the
degree wrappers is the identity. -/
theorem arcsin_wrapper_sin_wrapper (x : ℝ) (h1 : -90 ≤ x) (h2 : x ≤ 90) :
    Solaris6K.arcsin_wrapper (Solaris6K.sin_wrapper x) = x := by
  unfold Solaris6K.arcsin_wrapper Solaris6K.sin_wrapper
  have hπ := Real.pi_pos
  rw [Real.arcsin_sin (by nlinarith) (by nlinarith)]
  field_simp

/-- C7: the Element Interpolator computes exactly value = base + rate * t for
every base, rate and century offset, with no clamping or normalization; in
particular at t = 0 the interpolated value of every element of every body
(including the tabulated nine-body data of Constants.py) equals the base
value exactly, the rate contributing exactly zero. -/
theorem interpolation_linear_and_exact_at_epoch :
    (∀ base_value rate time : ℝ,
        Solaris6K.get_current_value base_value rate time = base_value + rate * time) ∧
    (∀ (n : ℕ) (base rate : Fin n → ℝ),
        (fun i => Solaris6K.get_current_value (base i) (rate i) 0) = base) ∧
    (∀ i : Fin 9,
        Solaris6K.get_current_value (Constants.SEMI_MAJOR_AXES i)
          (Constants.SEMI_MAJOR_AXES_RATE i) 0 = Constants.SEMI_MAJOR_AXES i) := by
  refine ⟨fun _ _ _ => rfl, fun n base rate => funext fun i => ?_, fun i => ?_⟩ <;>
    simp [Solaris6K.get_current_value]

/-- C8: for every body, the Ecliptic Rotator computes the rotated coordinate
as the dot products of the heliocentric vector with exactly the three rows
Px, Py, Pz given in the spec, where the perihelion argument is
perihelion_longitude - ascending_node_longitude. -/
theorem ecliptic_rotation_rows_match_spec :
    ∀ (h : ℝ × ℝ × ℝ) (perihelion_longitude ascending_node_longitude inclination : ℝ),
      Solaris6K.get_ecliptic_coordinate h
          (Solaris6K.get_perihelion_argument perihelion_longitude ascending_node_longitude)
          ascending_node_longitude inclination =
        (dot3 h (spec_row_x (perihelion_longitude - ascending_node_longitude)
            ascending_node_longitude inclination),
         dot3 h (spec_row_y (perihelion_longitude - ascending_node_longitude)
            ascending_node_longitude inclination),
         dot3 h (spec_row_z (perihelion_longitude - ascending_node_longitude)
            ascending_node_longitude inclination)) := by
  intro h pl node inc
  simp only [Solaris6K.get_ecliptic_coordinate, Solaris6K.get_perihelion_argument,
    dot3, spec_row_x, spec_row_y, spec_row_z]

/-- C4 counterexample: at mean_longitude = 0, perihelion_longitude = 90, zero
additional terms and t = 0 the Mean Anomaly Calculator returns exactly -90,
which lies outside the claimed half-open interval (-90, 90]. -/
theorem mean_anomaly_attains_neg_ninety :
    Solaris6K.get_mean_anomaly 0 90 (0, 0, 0, 0) 0 = -90 ∧
      Solaris6K.get_mean_anomaly 0 90 (0, 0, 0, 0) 0 ∉ Set.Ioc (-90 : ℝ) 90 := by
  have hval : Solaris6K.get_mean_anomaly 0 90 (0, 0, 0, 0) 0 = -90 := by
    simp only [Solaris6K.get_mean_anomaly, Solaris6K.arcsin_wrapper, Solaris6K.sin_wrapper]
    have harg : (0 : ℝ) - 90 + 0 * 0 ^ 2 + 0 * Real.cos (0 * 0) + 0 * Real.sin (0 * 0) = -90 := by
      norm_num
    rw [harg]
    have hdeg : (-90 : ℝ) * (Real.pi / 180) = -(Real.pi / 2) := by ring
    rw [hdeg, Real.sin_neg, Real.sin_pi_div_two, Real.arcsin_neg, Real.arcsin_one]
    field_simp
    ring
  refine ⟨hval, ?_⟩
  rw [hval]
  simp

/-- C4 (amended): for every input, the value returned by the Mean Anomaly
Calculator lies in the closed interval [-90, 90]; the arcsine-of-sine
normalization attains the endpoint -90, so the interval is closed on the
left rather than half-open. -/
theorem mean_anomaly_range_closed_interval :
    ∀ (mean_longitude perihelion_longitude : ℝ) (terms : ℝ × ℝ × ℝ × ℝ) (time : ℝ),
      Solaris6K.get_mean_anomaly mean_longitude perihelion_longitude terms time ∈
        Set.Icc (-90 : ℝ) 90 := by
  intro L p terms t
  obtain ⟨b, c, s, f⟩ := terms
  simp only [Solaris6K.get_mean_anomaly, Solaris6K.arcsin_wrapper, Set.mem_Icc]
  set y := Solaris6K.sin_wrapper (L - p + b * t ^ 2 + c * Real.cos (f * t) + s * Real.sin (f * t))
  have h1 := Real.neg_pi_div_two_le_arcsin y
  have h2 := Real.arcsin_le_pi_div_two y
  have hpos : (0 : ℝ) < 180 / Real.pi := by positivity
  have hlo : (-(Real.pi / 2)) * (180 / Real.pi) = -90 := by
    field_simp
    ring
  have hhi : (Real.pi / 2) * (180 / Real.pi) = 90 := by
    field_simp
    ring
  constructor
  · rw [← hlo]
    exact mul_le_mul_of_nonneg_right h1 hpos.le
  · rw [← hhi]
    exact mul_le_mul_of_nonneg_right h2 hpos.le

/-- C3: get_century raises the out-of-range error exactly when
|(jd - 2451545.0)/36525| > 30; it accepts the exact boundary offset 30 and
rejects 30.000001; and when it raises, the whole pipeline produces no
intermediate result (main_pipeline is none, so no element interpolation
output exists). -/
theorem get_century_out_of_range_iff :
    (∀ jd_time : ℝ,
        Solaris6K.get_century jd_time = none ↔
          30 < |(jd_time - Constants.J2000_0) / Constants.CONVERSION_FACTOR|) ∧
    (∀ jd_time : ℝ,
        ¬ 30 < |(jd_time - Constants.J2000_0) / Constants.CONVERSION_FACTOR| →
          Solaris6K.get_century jd_time =
            some ((jd_time - Constants.J2000_0) / Constants.CONVERSION_FACTOR)) ∧
    Solaris6K.get_century (Constants.J2000_0 + 30 * Constants.CONVERSION_FACTOR) = some 30 ∧
    Solaris6K.get_century (Constants.J2000_0 + 30.000001 * Constants.CONVERSION_FACTOR) = none ∧
    (∀ (n : ℕ) (tab : ElementTable n) (fuel : ℕ) (jd_time : ℝ),
        Solaris6K.get_century jd_time = none →
          Solaris6K.main_pipeline tab fuel jd_time = none) := by
  refine ⟨fun jd => ?_, fun jd h => ?_, ?_, ?_, fun n tab fuel jd h => ?_⟩
  · simp only [Solaris6K.get_century]
    split_ifs with h <;> simp [h]
  · simp only [Solaris6K.get_century]
    rw [if_neg h]
  · simp only [Solaris6K.get_century, Constants.J2000_0, Constants.CONVERSION_FACTOR]
    norm_num
  · simp only [Solaris6K.get_century, Constants.J2000_0, Constants.CONVERSION_FACTOR]
    have hc : (30 : ℝ) < |(2451545.0 + 30.000001 * 36525 - 2451545.0) / 36525| := by
      rw [abs_of_nonneg (by norm_num)]
      norm_num
    rw [if_pos hc]
  · simp [Solaris6K.main_pipeline, h]

/-- Witness for C3: at the J2000.0 epoch the offset 0 is in range and
get_century returns it. -/
theorem get_century_out_of_range_iff_witness :
    Solaris6K.get_century 2451545.0 =
      some ((2451545.0 - Constants.J2000_0) / Constants.CONVERSION_FACTOR) :=
  get_century_out_of_range_iff.2.1 2451545.0 (by
    simp only [Constants.J2000_0, Constants.CONVERSION_FACTOR]
    norm_num)

/-- C1: the periodic correction terms of get_mean_anomaly are evaluated by
the bare numpy cos/sin, so the argument f*t is read in radians, not in
degrees as the spec states.  At mean_longitude = perihelion_longitude = 0,
terms (b, c, s, f) = (0, 1, 0, 360) and t = 1 the code returns
cos(360 radians) while the degree-based formula of the spec returns 1, and
cos(360 radians) ≠ 1 because 360 is not an integer multiple of 2*pi. -/
theorem mean_anomaly_periodic_terms_use_radians :
    Solaris6K.get_mean_anomaly 0 0 (0, 1, 0, 360) 1 = Real.cos 360 ∧
      spec_mean_anomaly_degree_trig 0 0 (0, 1, 0, 360) 1 = 1 ∧
      Real.cos 360 ≠ 1 := by
  have hcos_ne : Real.cos 360 ≠ 1 := by
    intro h
    obtain ⟨k, hk⟩ := (Real.cos_eq_one_iff 360).mp h
    have hk0 : (k : ℝ) ≠ 0 := by
      intro h0
      rw [h0] at hk
      norm_num at hk
    have hπ : Real.pi = ((180 / (k : ℚ) : ℚ) : ℝ) := by
      push_cast
      rw [eq_div_iff hk0]
      nlinarith [hk]
    exact irrational_pi ⟨180 / (k : ℚ), hπ.symm⟩
  have hcos_le := Real.cos_le_one (360 : ℝ)
  have hcos_ge := Real.neg_one_le_cos (360 : ℝ)
  refine ⟨?_, ?_, hcos_ne⟩
  · simp only [Solaris6K.get_mean_anomaly]
    have harg : (0 : ℝ) - 0 + 0 * 1 ^ 2 + 1 * Real.cos (360 * 1) + 0 * Real.sin (360 * 1) =
        Real.cos 360 := by
      norm_num
    rw [harg, arcsin_wrapper_sin_wrapper _ (by linarith) (by linarith)]
  · simp only [spec_mean_anomaly_degree_trig]
    have hcosw : Solaris6K.cos_wrapper (360 * 1) = 1 := by
      unfold Solaris6K.cos_wrapper
      have h1 : (360 : ℝ) * 1 * (Real.pi / 180) = 2 * Real.pi := by ring
      rw [h1, Real.cos_two_pi]
    have hsinw : Solaris6K.sin_wrapper (360 * 1) = 0 := by
      unfold Solaris6K.sin_wrapper
      have h1 : (360 : ℝ) * 1 * (Real.pi / 180) = 2 * Real.pi := by ring
      rw [h1, Real.sin_two_pi]
    rw [hcosw, hsinw]
    have harg : (0 : ℝ) - 0 + 0 * 1 ^ 2 + 1 * 1 + 0 * 0 = 1 := by norm_num
    rw [harg, arcsin_wrapper_sin_wrapper _ (by norm_num) (by norm_num)]

/-- C5: the Heliocentric Projector performs no eccentricity validation: for
e = 2 the y component is NaN (modeled by none), silently propagated from
the square root of the negative 1 - e^2, for every e > 1 the same happens,
and at the boundary e = 1 the projector silently returns y = 0; no
DomainError path exists anywhere in the code. -/
theorem heliocentric_projector_silently_propagates_nan :
    Solaris6K.heliocentric_y 1 2 0 = none ∧
      (∀ a ecc E : ℝ, 1 < ecc → Solaris6K.heliocentric_y a ecc E = none) ∧
      (∀ a E : ℝ, Solaris6K.heliocentric_y a 1 E = some 0) := by
  have hgen : ∀ a ecc E : ℝ, 1 < ecc → Solaris6K.heliocentric_y a ecc E = none := by
    intro a ecc E h
    unfold Solaris6K.heliocentric_y Solaris6K.numpy_sqrt
    rw [if_pos (by nlinarith)]
    rfl
  refine ⟨hgen 1 2 0 (by norm_num), hgen, fun a E => ?_⟩
  unfold Solaris6K.heliocentric_y Solaris6K.numpy_sqrt
  rw [if_neg (by norm_num)]
  simp

/-- Witness for C5 at a = 1, e = 3/2, E = 0. -/
theorem heliocentric_projector_silently_propagates_nan_witness :
    Solaris6K.heliocentric_y 1 (3 / 2) 0 = none :=
  heliocentric_projector_silently_propagates_nan.2.1 1 (3 / 2) 0 (by norm_num)

/-- When the convergence test already fails, the embedded Kepler loop exits
immediately with the current state and zero iterations, whatever the fuel. -/
theorem eccentric_iter_exit {n : ℕ} (M e : Fin n → ℝ) (tol : Fin n → EReal)
    (ecc : Fin n → ℝ) (delta : Fin n → EReal)
    (h : ¬ Solaris6K.delta_exceeds delta tol) :
    ∀ fuel, Solaris6K.eccentric_iter M e tol fuel ecc delta = some (ecc, delta, 0) := by
  intro fuel
  cases fuel <;> simp only [Solaris6K.eccentric_iter, if_neg h]

/-- The embedded Kepler loop is deterministic: two runs from the same state
that both return a result return the same result, whatever their fuels. -/
theorem eccentric_iter_deterministic {n : ℕ} (M e : Fin n → ℝ) (tol : Fin n → EReal) :
    ∀ (f₁ f₂ : ℕ) (ecc : Fin n → ℝ) (delta : Fin n → EReal)
      (r₁ r₂ : (Fin n → ℝ) × (Fin n → EReal) × ℕ),
      Solaris6K.eccentric_iter M e tol f₁ ecc delta = some r₁ →
      Solaris6K.eccentric_iter M e tol f₂ ecc delta = some r₂ → r₁ = r₂ := by
  intro f₁
  induction f₁ with
  | zero =>
    intro f₂ ecc delta r₁ r₂ h₁ h₂
    by_cases hc : Solaris6K.delta_exceeds delta tol
    · simp only [Solaris6K.eccentric_iter, if_pos hc] at h₁
      exact absurd h₁ (by simp)
    · rw [eccentric_iter_exit M e tol ecc delta hc] at h₁ h₂
      rw [← Option.some_inj.mp h₁, ← Option.some_inj.mp h₂]
  | succ f ih =>
    intro f₂ ecc delta r₁ r₂ h₁ h₂
    by_cases hc : Solaris6K.delta_exceeds delta tol
    · simp only [Solaris6K.eccentric_iter, if_pos hc] at h₁
      rw [Option.map_eq_some'] at h₁
      obtain ⟨r₁', hr₁, hb₁⟩ := h₁
      cases f₂ with
      | zero =>
        simp only [Solaris6K.eccentric_iter, if_pos hc] at h₂
        exact absurd h₂ (by simp)
      | succ g =>
        simp only [Solaris6K.eccentric_iter, if_pos hc] at h₂
        rw [Option.map_eq_some'] at h₂
        obtain ⟨r₂', hr₂, hb₂⟩ := h₂
        rw [← hb₁, ← hb₂, ih g _ _ r₁' r₂' hr₁ hr₂]
    · rw [eccentric_iter_exit M e tol ecc delta hc] at h₁ h₂
      rw [← Option.some_inj.mp h₁, ← Option.some_inj.mp h₂]

/-- Whenever the embedded Kepler loop returns, the final delta vector fails
the convergence test against every body's tolerance simultaneously. -/
theorem eccentric_iter_barrier {n : ℕ} (M e : Fin n → ℝ) (tol : Fin n → EReal) :
    ∀ (fuel : ℕ) (ecc : Fin n → ℝ) (delta : Fin n → EReal)
      (Ef : Fin n → ℝ) (df : Fin n → EReal) (k : ℕ),
      Solaris6K.eccentric_iter M e tol fuel ecc delta = some (Ef, df, k) →
      ¬ Solaris6K.delta_exceeds df tol := by
  intro fuel
  induction fuel with
  | zero =>
    intro ecc delta Ef df k h
    by_cases hc : Solaris6K.delta_exceeds delta tol
    · simp only [Solaris6K.eccentric_iter, if_pos hc] at h
      exact absurd h (by simp)
    · simp only [Solaris6K.eccentric_iter, if_neg hc, Option.some.injEq,
        Prod.mk.injEq] at h
      obtain ⟨-, rfl, -⟩ := h
      exact hc
  | succ f ih =>
    intro ecc delta Ef df k h
    by_cases hc : Solaris6K.delta_exceeds delta tol
    · simp only [Solaris6K.eccentric_iter, if_pos hc] at h
      rw [Option.map_eq_some'] at h
      obtain ⟨⟨E', d', k'⟩, hr, hb⟩ := h
      simp only [Prod.mk.injEq] at hb
      obtain ⟨-, rfl, -⟩ := hb
      exact ih _ _ _ _ _ hr
    · simp only [Solaris6K.eccentric_iter, if_neg hc, Option.some.injEq,
        Prod.mk.injEq] at h
      obtain ⟨-, rfl, -⟩ := h
      exact hc

/-- A concrete one-body run: with zero mean anomaly, zero eccentricity and
the configured tolerance, the loop performs exactly one Newton update (the
infinite initial delta passes the signed test) and then stops with delta 0. -/
theorem eccentric_iter_zero_eval (fuel : ℕ) :
    Solaris6K.eccentric_iter (fun _ : Fin 1 => (0 : ℝ)) (fun _ => 0)
        (fun _ => ((Constants.TOL : ℝ) : EReal)) (fuel + 1)
        (Solaris6K.eccentric_seed (fun _ => 0) (fun _ => 0)) (fun _ => ⊤) =
      some (fun _ => 0, fun _ => ((0 : ℝ) : EReal), 1) := by
  have hseed0 : Solaris6K.eccentric_seed (fun _ : Fin 1 => (0 : ℝ)) (fun _ => 0) =
      fun _ => 0 := by
    funext i
    simp [Solaris6K.eccentric_seed, Solaris6K.sin_wrapper]
  have hnu0 : Solaris6K.newton_update (fun _ : Fin 1 => (0 : ℝ)) (fun _ => 0) (fun _ => 0) =
      fun _ => 0 := by
    funext i
    simp [Solaris6K.newton_update, Solaris6K.sin_wrapper, Solaris6K.cos_wrapper]
  have hnoex : ¬ Solaris6K.delta_exceeds (fun _ : Fin 1 => ((0 : ℝ) : EReal))
      (fun _ => ((Constants.TOL : ℝ) : EReal)) := by
    rintro ⟨i, hi⟩
    rw [EReal.coe_lt_coe_iff] at hi
    simp only [Constants.TOL] at hi
    norm_num at hi
  have hcond : Solaris6K.delta_exceeds (fun _ : Fin 1 => (⊤ : EReal))
      (fun _ => ((Constants.TOL : ℝ) : EReal)) := ⟨0, EReal.coe_lt_top _⟩
  rw [hseed0, Solaris6K.eccentric_iter, if_pos hcond]
  simp only [hnu0, add_zero]
  rw [eccentric_iter_exit _ _ _ _ _ hnoex fuel]
  rfl

/-- C6: the full pipeline is deterministic.  Two invocations on the same
injected table and the same Julian date that both produce an output produce
the same output, whatever fuel the embedded Kepler loop is given: no stage
reads or writes hidden state, so identical inputs yield identical results. -/
theorem main_pipeline_deterministic :
    ∀ (n : ℕ) (tab : ElementTable n) (f₁ f₂ : ℕ) (jd : ℝ)
      (r₁ r₂ : Fin n → ℝ × ℝ × ℝ),
      Solaris6K.main_pipeline tab f₁ jd = some r₁ →
      Solaris6K.main_pipeline tab f₂ jd = some r₂ → r₁ = r₂ := by
  intro n tab f₁ f₂ jd r₁ r₂ h₁ h₂
  unfold Solaris6K.main_pipeline at h₁ h₂
  cases hg : Solaris6K.get_century jd with
  | none =>
    rw [hg] at h₁
    exact absurd h₁ (by simp)
  | some t =>
    rw [hg] at h₁ h₂
    simp only [Option.some_bind] at h₁ h₂
    rw [Option.map_eq_some'] at h₁ h₂
    obtain ⟨E₁, hE₁, hout₁⟩ := h₁
    obtain ⟨E₂, hE₂, hout₂⟩ := h₂
    unfold Solaris6K.get_eccentric_anomaly at hE₁ hE₂
    rw [Option.map_eq_some'] at hE₁ hE₂
    obtain ⟨s₁, hs₁, hfst₁⟩ := hE₁
    obtain ⟨s₂, hs₂, hfst₂⟩ := hE₂
    have hs : s₁ = s₂ := eccentric_iter_deterministic _ _ _ f₁ f₂ _ _ s₁ s₂ hs₁ hs₂
    rw [← hout₁, ← hout₂, ← hfst₁, ← hfst₂, hs]

/-- A concrete terminating run of the pipeline: on the all-zero one-body
table at the J2000.0 epoch every stage evaluates to zero, for any positive
fuel. -/
theorem main_pipeline_zeroTable_eval (fuel : ℕ) :
    Solaris6K.main_pipeline zeroTable (fuel + 1) 2451545.0 =
      some (fun _ => (0, 0, 0)) := by
  have hg : Solaris6K.get_century 2451545.0 = some 0 := by
    simp only [Solaris6K.get_century, Constants.J2000_0, Constants.CONVERSION_FACTOR]
    norm_num
  have hM : Solaris6K.get_mean_anomaly 0 0 (0, 0, 0, 0) 0 = 0 := by
    simp only [Solaris6K.get_mean_anomaly]
    have harg : (0 : ℝ) - 0 + 0 * 0 ^ 2 + 0 * Real.cos (0 * 0) + 0 * Real.sin (0 * 0) = 0 := by
      norm_num
    rw [harg, arcsin_wrapper_sin_wrapper _ (by norm_num) (by norm_num)]
  have hsolver : Solaris6K.get_eccentric_anomaly (fun _ : Fin 1 => (0 : ℝ)) (fun _ => 0)
      (fun _ => ((Constants.TOL : ℝ) : EReal)) (fuel + 1) = some (fun _ => 0) := by
    unfold Solaris6K.get_eccentric_anomaly
    rw [eccentric_iter_zero_eval fuel]
    rfl
  unfold Solaris6K.main_pipeline
  rw [hg]
  simp only [Option.some_bind, zeroTable, Solaris6K.get_current_value,
    Solaris6K.get_perihelion_argument, mul_zero, add_zero, zero_add, sub_zero, hM, hsolver,
    Option.map_some']
  refine congrArg some (funext fun i => ?_)
  simp [Solaris6K.get_ecliptic_coordinate]

/-- Witness for C6: the two runs of the pipeline on the zero table with
fuels 1 and 2 both return the all-zero output, and the determinism theorem
identifies them. -/
theorem main_pipeline_deterministic_witness :
    Solaris6K.main_pipeline zeroTable 1 2451545.0 =
        some (fun _ => ((0 : ℝ), (0 : ℝ), (0 : ℝ))) ∧
      Solaris6K.main_pipeline zeroTable 2 2451545.0 =
        some (fun _ => ((0 : ℝ), (0 : ℝ), (0 : ℝ))) ∧
      (fun _ : Fin 1 => ((0 : ℝ), (0 : ℝ), (0 : ℝ))) =
        (fun _ : Fin 1 => ((0 : ℝ), (0 : ℝ), (0 : ℝ))) :=
  ⟨main_pipeline_zeroTable_eval 0, main_pipeline_zeroTable_eval 1,
    main_pipeline_deterministic 1 zeroTable 1 2 2451545.0 _ _
      (main_pipeline_zeroTable_eval 0) (main_pipeline_zeroTable_eval 1)⟩

/-- C10 counterexample: with every tolerance equal to +∞ the loop body never
runs, because inf > inf is false: the solver returns the seed with zero
Newton updates (here even with zero fuel), refuting the claim that at least
one update always executes. -/
theorem kepler_loop_zero_updates_at_infinite_tol :
    Solaris6K.eccentric_iter (fun _ : Fin 1 => (0 : ℝ)) (fun _ => 0)
        (fun _ => (⊤ : EReal)) 0
        (Solaris6K.eccentric_seed (fun _ => 0) (fun _ => 0)) (fun _ => ⊤) =
      some (Solaris6K.eccentric_seed (fun _ => 0) (fun _ => 0), fun _ => ⊤, 0) ∧
    Solaris6K.get_eccentric_anomaly (fun _ : Fin 1 => (0 : ℝ)) (fun _ => 0)
        (fun _ => (⊤ : EReal)) 0 =
      some (Solaris6K.eccentric_seed (fun _ => 0) (fun _ => 0)) := by
  have hnc : ¬ Solaris6K.delta_exceeds (fun _ : Fin 1 => (⊤ : EReal))
      (fun _ => (⊤ : EReal)) := by
    rintro ⟨i, hi⟩
    exact lt_irrefl _ hi
  refine ⟨eccentric_iter_exit _ _ _ _ _ hnc 0, ?_⟩
  unfold Solaris6K.get_eccentric_anomaly
  rw [eccentric_iter_exit _ _ _ _ _ hnc 0]
  rfl

/-- C10 (amended): whenever the Kepler solver returns, every body's most
recent signed delta simultaneously fails to exceed its tolerance (a global
barrier, no per-body early exit); at least one Newton update executes
exactly when some body's tolerance is below +∞, since the initial infinite
delta passes the signed test against any finite tolerance but inf > inf is
false, so an all-infinite tolerance vector returns the seed with zero
updates. -/
theorem kepler_loop_barrier_and_first_update :
    ∀ (n : ℕ) (M e : Fin n → ℝ) (tol : Fin n → EReal) (fuel : ℕ)
      (Ef : Fin n → ℝ) (df : Fin n → EReal) (k : ℕ),
      Solaris6K.eccentric_iter M e tol fuel (Solaris6K.eccentric_seed M e) (fun _ => ⊤) =
          some (Ef, df, k) →
        (¬ Solaris6K.delta_exceeds df tol) ∧
        ((∃ i, tol i ≠ ⊤) → 1 ≤ k) ∧
        ((∀ i, tol i = ⊤) → Ef = Solaris6K.eccentric_seed M e ∧ k = 0) := by
  intro n M e tol fuel Ef df k h
  refine ⟨eccentric_iter_barrier M e tol fuel _ _ _ _ _ h, ?_, ?_⟩
  · rintro ⟨i, hi⟩
    have hc : Solaris6K.delta_exceeds (fun _ : Fin n => (⊤ : EReal)) tol :=
      ⟨i, lt_top_iff_ne_top.mpr hi⟩
    cases fuel with
    | zero =>
      simp only [Solaris6K.eccentric_iter, if_pos hc] at h
      exact absurd h (by simp)
    | succ f =>
      simp only [Solaris6K.eccentric_iter, if_pos hc] at h
      rw [Option.map_eq_some'] at h
      obtain ⟨r', -, hb⟩ := h
      simp only [Prod.mk.injEq] at hb
      obtain ⟨-, -, hk⟩ := hb
      omega
  · intro htop
    have hnc : ¬ Solaris6K.delta_exceeds (fun _ : Fin n => (⊤ : EReal)) tol := by
      rintro ⟨i, hi⟩
      rw [htop i] at hi
      exact lt_irrefl _ hi
    rw [eccentric_iter_exit M e tol _ _ hnc fuel] at h
    simp only [Option.some.injEq, Prod.mk.injEq] at h
    obtain ⟨h1, -, h3⟩ := h
    exact ⟨h1.symm, h3.symm⟩

/-- Witness for C10 with the concrete one-body zero run at the configured
finite tolerance: the returned final delta respects the barrier and the
update count is 1. -/
theorem kepler_loop_barrier_and_first_update_witness :
    (¬ Solaris6K.delta_exceeds (fun _ : Fin 1 => ((0 : ℝ) : EReal))
        (fun _ => ((Constants.TOL : ℝ) : EReal))) ∧ 1 ≤ 1 :=
  have h := kepler_loop_barrier_and_first_update 1 (fun _ => 0) (fun _ => 0)
    (fun _ => ((Constants.TOL : ℝ) : EReal)) 1 (fun _ => 0) (fun _ => ((0 : ℝ) : EReal)) 1
    (eccentric_iter_zero_eval 0)
  ⟨h.1, h.2.1 ⟨0, EReal.coe_ne_top _⟩⟩

/-- The two transcribed Kepler loops agree, fuel by fuel. -/
theorem eccentric_iter_modules_eq {n : ℕ} (M e : Fin n → ℝ) (tol : Fin n → EReal) :
    ∀ (fuel : ℕ) (ecc : Fin n → ℝ) (delta : Fin n → EReal),
      Solaris6K.eccentric_iter M e tol fuel ecc delta =
        solaris_6k.eccentric_iter M e tol fuel ecc delta := by
  intro fuel
  induction fuel with
  | zero => intro ecc delta; rfl
  | succ f ih =>
    intro ecc delta
    by_cases hc : Solaris6K.delta_exceeds delta tol
    · have hc' : solaris_6k.delta_exceeds delta tol := hc
      simp only [Solaris6K.eccentric_iter, solaris_6k.eccentric_iter, if_pos hc, if_pos hc']
      rw [ih]
      rfl
    · have hc' : ¬ solaris_6k.delta_exceeds delta tol := hc
      simp only [Solaris6K.eccentric_iter, solaris_6k.eccentric_iter, if_neg hc, if_neg hc']

/-- C9: the two entry modules Solaris6K.py and solaris_6k.py are
functionally equivalent: every corresponding pair of functions, including
the full pipelines, computes the same result on every input. -/
theorem modules_functionally_equivalent :
    (∀ jd : ℝ, Solaris6K.get_century jd = solaris_6k.get_century jd) ∧
    (∀ base rate t : ℝ,
        Solaris6K.get_current_value base rate t = solaris_6k.get_current_value base rate t) ∧
    (∀ p a : ℝ,
        Solaris6K.get_perihelion_argument p a = solaris_6k.get_perihelion_argument p a) ∧
    (∀ (L p : ℝ) (terms : ℝ × ℝ × ℝ × ℝ) (t : ℝ),
        Solaris6K.get_mean_anomaly L p terms t = solaris_6k.get_mean_anomaly L p terms t) ∧
    (∀ (n : ℕ) (M e : Fin n → ℝ) (tol : Fin n → EReal) (fuel : ℕ),
        Solaris6K.get_eccentric_anomaly M e tol fuel =
          solaris_6k.get_eccentric_anomaly M e tol fuel) ∧
    (∀ (h : ℝ × ℝ × ℝ) (w node inc : ℝ),
        Solaris6K.get_ecliptic_coordinate h w node inc =
          solaris_6k.get_ecliptic_coordinate h w node inc) ∧
    (∀ (n : ℕ) (tab : ElementTable n) (fuel : ℕ) (jd : ℝ),
        Solaris6K.main_pipeline tab fuel jd = solaris_6k.main_pipeline tab fuel jd) := by
  have hecc : ∀ (n : ℕ) (M e : Fin n → ℝ) (tol : Fin n → EReal) (fuel : ℕ),
      Solaris6K.get_eccentric_anomaly M e tol fuel =
        solaris_6k.get_eccentric_anomaly M e tol fuel := by
    intro n M e tol fuel
    unfold Solaris6K.get_eccentric_anomaly solaris_6k.get_eccentric_anomaly
    rw [eccentric_iter_modules_eq]
    rfl
  refine ⟨fun _ => rfl, fun _ _ _ => rfl, fun _ _ => rfl, fun _ _ _ _ => rfl, hecc,
    fun _ _ _ _ => rfl, fun n tab fuel jd => ?_⟩
  unfold Solaris6K.main_pipeline solaris_6k.main_pipeline
  simp only [hecc]
  rfl

/-- A quantitative bound: for 0.08 < z ≤ 1 the cosine falls measurably
below one, via the half-angle identity and the cubic lower bound on sine. -/
theorem one_minus_cos_lower (z : ℝ) (hz_lb : (0.08 : ℝ) < z) (hz_ub : z ≤ 1) :
    (0.000128 : ℝ) < 1 - Real.cos z := by
  have hhalf : 1 - Real.cos z = 2 * Real.sin (z / 2) ^ 2 := by
    have hc2 : Real.cos (2 * (z / 2)) = 2 * Real.cos (z / 2) ^ 2 - 1 := Real.cos_two_mul (z / 2)
    rw [show 2 * (z / 2) = z by ring] at hc2
    have hsc := Real.sin_sq_add_cos_sq (z / 2)
    linarith
  have h := Real.sin_gt_sub_cube (by linarith : 0 < z / 2) (by linarith : z / 2 ≤ 1)
  have hcube : (z / 2) ^ 3 ≤ (1 / 2 : ℝ) ^ 3 :=
    pow_le_pow_left₀ (by linarith) (by linarith) 3
  have hsin_half : (0.008 : ℝ) < Real.sin (z / 2) := by nlinarith [h, hcube, hz_lb]
  nlinarith [hhalf, hsin_half, sq_nonneg (Real.sin (z / 2) - 0.008)]

/-- C2: the Kepler round-trip property fails on the code.  With the single
body M = 300 degrees, eccentricity √3·π/9 ≈ 0.6046 ∈ [0, 0.9] and the
configured tolerance 1e-7, the seed is exactly 270 degrees and the first
Newton delta is 30 - 20·√3 ≈ -4.64 degrees: the signed convergence test
accepts this negative delta immediately, the loop returns
E = 300 - 20·√3 after a single iteration, and the round-trip residual
|M - (E - e·(180/π)·sin_deg E)| = 20·√3·(1 - cos((20·√3-30)·π/180)) ≈ 0.113
degrees, far above the tolerance. -/
theorem kepler_roundtrip_violated_by_signed_tolerance_check :
    (0 : ℝ) ≤ Real.sqrt 3 * Real.pi / 9 ∧
    Real.sqrt 3 * Real.pi / 9 ≤ 0.9 ∧
    Solaris6K.get_eccentric_anomaly (fun _ : Fin 1 => (300 : ℝ))
        (fun _ => Real.sqrt 3 * Real.pi / 9)
        (fun _ => ((Constants.TOL : ℝ) : EReal)) 1 =
      some (fun _ => 300 - 20 * Real.sqrt 3) ∧
    Constants.TOL <
      |300 - ((300 - 20 * Real.sqrt 3)
        - Real.sqrt 3 * Real.pi / 9 * Constants.ECCENTRICITIY_FACTOR
          * Solaris6K.sin_wrapper (300 - 20 * Real.sqrt 3))| := by
  have hπpos := Real.pi_pos
  have hπl := Real.pi_gt_d6
  have hπu := Real.pi_lt_d6
  have hs_nonneg : (0 : ℝ) ≤ Real.sqrt 3 := Real.sqrt_nonneg 3
  have hs2 : Real.sqrt 3 * Real.sqrt 3 = 3 := Real.mul_self_sqrt (by norm_num)
  have hs_lb : (1.7320 : ℝ) < Real.sqrt 3 := by
    rw [Real.lt_sqrt (by norm_num)]
    norm_num
  have hs_ub : Real.sqrt 3 < 1.7321 := by
    rw [Real.sqrt_lt' (by norm_num)]
    norm_num
  have hfac : Real.sqrt 3 * Real.pi / 9 * Constants.ECCENTRICITIY_FACTOR =
      20 * Real.sqrt 3 := by
    unfold Constants.ECCENTRICITIY_FACTOR
    field_simp
    ring
  have hsin300 : Solaris6K.sin_wrapper 300 = -(Real.sqrt 3 / 2) := by
    unfold Solaris6K.sin_wrapper
    rw [show (300 : ℝ) * (Real.pi / 180) = 2 * Real.pi - Real.pi / 3 by ring,
      Real.sin_two_pi_sub, Real.sin_pi_div_three]
  have hsin270 : Solaris6K.sin_wrapper 270 = -1 := by
    unfold Solaris6K.sin_wrapper
    rw [show (270 : ℝ) * (Real.pi / 180) = 2 * Real.pi - Real.pi / 2 by ring,
      Real.sin_two_pi_sub, Real.sin_pi_div_two]
  have hcos270 : Solaris6K.cos_wrapper 270 = 0 := by
    unfold Solaris6K.cos_wrapper
    rw [show (270 : ℝ) * (Real.pi / 180) = 2 * Real.pi - Real.pi / 2 by ring,
      Real.cos_two_pi_sub, Real.cos_pi_div_two]
  have hseed : Solaris6K.eccentric_seed (fun _ : Fin 1 => (300 : ℝ))
      (fun _ => Real.sqrt 3 * Real.pi / 9) = fun _ => 270 := by
    funext i
    simp only [Solaris6K.eccentric_seed]
    rw [hfac, hsin300]
    linear_combination (-(10 : ℝ)) * hs2
  have hnu : Solaris6K.newton_update (fun _ : Fin 1 => (300 : ℝ))
      (fun _ => Real.sqrt 3 * Real.pi / 9) (fun _ => 270) =
      fun _ => 30 - 20 * Real.sqrt 3 := by
    funext i
    simp only [Solaris6K.newton_update]
    rw [hfac, hsin270, hcos270]
    ring
  have hcond0 : Solaris6K.delta_exceeds (fun _ : Fin 1 => (⊤ : EReal))
      (fun _ => ((Constants.TOL : ℝ) : EReal)) := ⟨0, EReal.coe_lt_top _⟩
  have hcond1 : ¬ Solaris6K.delta_exceeds
      (fun _ : Fin 1 => ((30 - 20 * Real.sqrt 3 : ℝ) : EReal))
      (fun _ => ((Constants.TOL : ℝ) : EReal)) := by
    rintro ⟨i, hi⟩
    rw [EReal.coe_lt_coe_iff] at hi
    simp only [Constants.TOL] at hi
    norm_num at hi
    nlinarith [hs_lb]
  have hiter : Solaris6K.eccentric_iter (fun _ : Fin 1 => (300 : ℝ))
      (fun _ => Real.sqrt 3 * Real.pi / 9) (fun _ => ((Constants.TOL : ℝ) : EReal)) 1
      (fun _ => 270) (fun _ => ⊤) =
      some (fun _ => 300 - 20 * Real.sqrt 3,
        fun _ => ((30 - 20 * Real.sqrt 3 : ℝ) : EReal), 1) := by
    rw [Solaris6K.eccentric_iter, if_pos hcond0]
    simp only [hnu]
    rw [show (fun i : Fin 1 => (270 : ℝ) + (30 - 20 * Real.sqrt 3)) =
        fun _ : Fin 1 => (300 - 20 * Real.sqrt 3 : ℝ) from funext fun i => by ring]
    rw [eccentric_iter_exit _ _ _ _ _ hcond1 0]
    rfl
  have hsolve : Solaris6K.get_eccentric_anomaly (fun _ : Fin 1 => (300 : ℝ))
      (fun _ => Real.sqrt 3 * Real.pi / 9) (fun _ => ((Constants.TOL : ℝ) : EReal)) 1 =
      some (fun _ => 300 - 20 * Real.sqrt 3) := by
    unfold Solaris6K.get_eccentric_anomaly
    rw [hseed, hiter]
    rfl
  have hsinE : Solaris6K.sin_wrapper (300 - 20 * Real.sqrt 3) =
      -Real.cos ((20 * Real.sqrt 3 - 30) * (Real.pi / 180)) := by
    unfold Solaris6K.sin_wrapper
    rw [show (300 - 20 * Real.sqrt 3) * (Real.pi / 180) =
        2 * Real.pi - (Real.pi / 2 + (20 * Real.sqrt 3 - 30) * (Real.pi / 180)) by ring,
      Real.sin_two_pi_sub, Real.sin_add, Real.sin_pi_div_two, Real.cos_pi_div_two]
    ring
  set z := (20 * Real.sqrt 3 - 30) * (Real.pi / 180) with hzdef
  have hA_lb : (4.64 : ℝ) < 20 * Real.sqrt 3 - 30 := by nlinarith [hs_lb]
  have hA_ub : 20 * Real.sqrt 3 - 30 < 4.642 := by nlinarith [hs_ub]
  have hz_pos : 0 < z := by
    rw [hzdef]
    apply mul_pos (by linarith) (by positivity)
  have hz_lb : (0.08 : ℝ) < z := by
    rw [hzdef]
    nlinarith [hA_lb, hπl]
  have hz_ub : z ≤ 1 := by
    rw [hzdef]
    nlinarith [hA_ub, hπu, hA_lb]
  have hcos_lower : (0.000128 : ℝ) < 1 - Real.cos z := one_minus_cos_lower z hz_lb hz_ub
  have h20 : (20 : ℝ) < 20 * Real.sqrt 3 := by nlinarith [hs_lb]
  have hres : Constants.TOL < 20 * Real.sqrt 3 * (1 - Real.cos z) := by
    calc (Constants.TOL : ℝ) < 20 * 0.000128 := by
          simp only [Constants.TOL]
          norm_num
      _ < 20 * Real.sqrt 3 * (1 - Real.cos z) :=
          mul_lt_mul'' h20 hcos_lower (by norm_num) (by norm_num)
  refine ⟨by positivity, by nlinarith [hs_ub, hπu, hs_nonneg, hπpos], hsolve, ?_⟩
  have hinner : 300 - ((300 - 20 * Real.sqrt 3)
      - Real.sqrt 3 * Real.pi / 9 * Constants.ECCENTRICITIY_FACTOR
        * Solaris6K.sin_wrapper (300 - 20 * Real.sqrt 3)) =
      20 * Real.sqrt 3 * (1 - Real.cos z) := by
    rw [hfac, hsinE]
    ring
  rw [← hinner] at hres
  exact lt_of_lt_of_le hres (le_abs_self _)

end
